import Mathlib

/-!
Verification of the change-detection and trend-analysis engine of the
Fire_short_drama repository (src/analyzer.py, src/database.py, src/export.py).

Modelling conventions:
* A row of the dramas table (src/database.py, CREATE TABLE dramas) is `DbRow`;
  the columns the analyzer touches are kept (drama_id, title, theme, rank,
  read_count, collect_count); columns the analyzer never reads
  (description, episode_count, like_count, score, cover_url, extra_json)
  are omitted.
* Crawl times are ISO-8601 TEXT in the database and are compared with the
  string order, which on ISO-8601 coincides with chronological order; they
  are modelled as naturals.
* Python dicts keyed by strings are modelled as association lists with
  insertion-order semantics (`insertAL` overwrites in place, appends fresh
  keys at the end), matching dict insertion/iteration order.
* Python floats are modelled as exact rationals; `round(x, 1)` is modelled
  as exact decimal rounding half-to-even (`pyRound1`).
* Python `list.sort` is a stable sort; it is modelled with
  `List.insertionSort`, which is stable for the same total preorder.
* The module-level thresholds RANK_SURGE_THRESHOLD, READ_COUNT_SURGE_PCT and
  COLLECT_SURGE_PCT (src/config.py, loaded from settings with defaults
  10 / 50 / 30) are threaded explicitly as an `AnalysisConfig`.
-/

/-- One record of the dramas table, restricted to the columns the analyzer
reads. `theme`, `read_count` and `collect_count` are nullable columns. -/
structure Drama where
  drama_id : String
  title : String
  theme : Option String
  rank : Int
  read_count : Option Int
  collect_count : Option Int
  deriving DecidableEq, Repr

/-- The three analysis thresholds of src/config.py. -/
structure AnalysisConfig where
  rank_surge_threshold : Int
  read_count_surge_pct : Rat
  collect_surge_pct : Rat
  deriving DecidableEq, Repr

/-- Default thresholds from src/config.py DEFAULTS. -/
def defaultConfig : AnalysisConfig := ⟨10, 50, 30⟩

/-- Insertion into a string-keyed Python dict: an existing key is overwritten
in place (keeping its insertion position), a fresh key is appended. -/
def insertAL {α : Type} : List (String × α) → String → α → List (String × α)
  | [], k, v => [(k, v)]
  | (k1, v1) :: t, k, v =>
      if k = k1 then (k1, v) :: t else (k1, v1) :: insertAL t k v

/-- Lookup in a string-keyed association list (Python `dict[k]` / `dict.get`). -/
def lookupAL {α : Type} : List (String × α) → String → Option α
  | [], _ => none
  | (k1, v1) :: t, k => if k = k1 then some v1 else lookupAL t k

/-- Key-membership test (Python `k in dict`). -/
def containsKeyAL {α : Type} (m : List (String × α)) (k : String) : Bool :=
  (lookupAL m k).isSome

/-- Identity-indexed map of a snapshot: src/analyzer.py lines 20-21,
a dict comprehension keyed by drama_id — later duplicates overwrite. -/
def buildDramaMap (l : List Drama) : List (String × Drama) :=
  l.foldl (fun m d => insertAL m d.drama_id d) []

/-- Round to the nearest integer, halves to even: the semantics of Python
round() on an exact decimal value. -/
def roundHalfEven (q : Rat) : Int :=
  let f : Int := ⌊q⌋
  if q - f < 1 / 2 then f
  else if (1 : Rat) / 2 < q - f then f + 1
  else if Even f then f else f + 1

/-- Python `round(x, 1)`, modelled exactly on rationals. -/
def pyRound1 (q : Rat) : Rat :=
  (roundHalfEven (q * 10) : Rat) / 10

/-- Element of rank_surges / rank_drops / top_movers_up / top_movers_down:
the drama record spread together with prev_rank and rank_change
(src/analyzer.py 47-62). -/
structure RankChangeRec where
  drama : Drama
  prev_rank : Int
  rank_change : Int
  deriving DecidableEq, Repr

/-- Element of read_surges: the drama record spread together with
prev_read_count and read_change_pct (src/analyzer.py 70-74). -/
structure ReadSurgeRec where
  drama : Drama
  prev_read_count : Int
  read_change_pct : Rat
  deriving DecidableEq, Repr

/-- Element of collect_surges: the drama record spread together with
prev_collect_count and collect_change_pct (src/analyzer.py 82-86). -/
structure CollectSurgeRec where
  drama : Drama
  prev_collect_count : Int
  collect_change_pct : Rat
  deriving DecidableEq, Repr

/-- The eight sequences of the change set (src/analyzer.py 23-32). -/
structure Changes where
  new_entries : List Drama
  rank_surges : List RankChangeRec
  rank_drops : List RankChangeRec
  read_surges : List ReadSurgeRec
  collect_surges : List CollectSurgeRec
  exits : List Drama
  top_movers_up : List RankChangeRec
  top_movers_down : List RankChangeRec
  deriving DecidableEq, Repr

/-- The initial empty change set (src/analyzer.py 23-32). -/
def emptyChanges : Changes := ⟨[], [], [], [], [], [], [], []⟩

/-- Read-count surge check for one matched item (src/analyzer.py 64-74):
the Python expression reading read_count with an or-0 fallback maps NULL to 0; the percent change is computed
only when the previous count is strictly positive. -/
def readSurgeEntry (cfg : AnalysisConfig) (prev drama : Drama) : List ReadSurgeRec :=
  let prev_reads := prev.read_count.getD 0
  let curr_reads := drama.read_count.getD 0
  if 0 < prev_reads then
    let read_pct := ((curr_reads - prev_reads : Int) : Rat) / (prev_reads : Rat) * 100
    if cfg.read_count_surge_pct ≤ read_pct then
      [⟨drama, prev_reads, pyRound1 read_pct⟩]
    else []
  else []

/-- Collect-count surge check for one matched item (src/analyzer.py 76-86). -/
def collectSurgeEntry (cfg : AnalysisConfig) (prev drama : Drama) : List CollectSurgeRec :=
  let prev_collects := prev.collect_count.getD 0
  let curr_collects := drama.collect_count.getD 0
  if 0 < prev_collects then
    let collect_pct := ((curr_collects - prev_collects : Int) : Rat) / (prev_collects : Rat) * 100
    if cfg.collect_surge_pct ≤ collect_pct then
      [⟨drama, prev_collects, pyRound1 collect_pct⟩]
    else []
  else []

/-- Body of the `for drama in current` loop (src/analyzer.py 34-86).
An unmatched current item is a new entry; a matched one is classified by
`rank_diff = prev_rank - curr_rank` (surge / drop via if-elif on the
threshold, mover up / down via if-elif on the sign) and by the two metric
surge checks. -/
def stepItem (cfg : AnalysisConfig) (prev_map : List (String × Drama))
    (ch : Changes) (drama : Drama) : Changes :=
  match lookupAL prev_map drama.drama_id with
  | none => { ch with new_entries := ch.new_entries ++ [drama] }
  | some prev =>
      let rank_diff := prev.rank - drama.rank
      { ch with
        rank_surges := ch.rank_surges ++
          (if cfg.rank_surge_threshold ≤ rank_diff then
            [⟨drama, prev.rank, rank_diff⟩] else []),
        rank_drops := ch.rank_drops ++
          (if cfg.rank_surge_threshold ≤ rank_diff then []
           else if rank_diff ≤ -cfg.rank_surge_threshold then
            [⟨drama, prev.rank, rank_diff⟩] else []),
        top_movers_up := ch.top_movers_up ++
          (if 0 < rank_diff then [⟨drama, prev.rank, rank_diff⟩] else []),
        top_movers_down := ch.top_movers_down ++
          (if rank_diff < 0 then [⟨drama, prev.rank, rank_diff⟩] else []),
        read_surges := ch.read_surges ++ readSurgeEntry cfg prev drama,
        collect_surges := ch.collect_surges ++ collectSurgeEntry cfg prev drama }

/-- The seven sorts of src/analyzer.py 93-100 (exits are never sorted):
rank surges and movers-up descending by rank_change, rank drops and
movers-down ascending, metric surges descending by percent change,
new entries ascending by rank; all stable. -/
def sortChanges (ch : Changes) : Changes :=
  { ch with
    rank_surges := ch.rank_surges.insertionSort (fun a b => b.rank_change ≤ a.rank_change),
    rank_drops := ch.rank_drops.insertionSort (fun a b => a.rank_change ≤ b.rank_change),
    read_surges := ch.read_surges.insertionSort (fun a b => b.read_change_pct ≤ a.read_change_pct),
    collect_surges := ch.collect_surges.insertionSort (fun a b => b.collect_change_pct ≤ a.collect_change_pct),
    new_entries := ch.new_entries.insertionSort (fun a b => a.rank ≤ b.rank),
    top_movers_up := ch.top_movers_up.insertionSort (fun a b => b.rank_change ≤ a.rank_change),
    top_movers_down := ch.top_movers_down.insertionSort (fun a b => a.rank_change ≤ b.rank_change) }

/-- The change detector on two materialized snapshots: src/analyzer.py
lines 20-102 of analyze_platform_changes. Exits (lines 88-91) are the
previous-map entries whose id is absent from the current map, in
previous-map iteration order. -/
def detectChanges (cfg : AnalysisConfig) (current previous : List Drama) : Changes :=
  let prev_map := buildDramaMap previous
  let curr_map := buildDramaMap current
  let looped := current.foldl (stepItem cfg prev_map) emptyChanges
  let withExits := { looped with exits := looped.exits ++
    (prev_map.filter (fun kv => !(containsKeyAL curr_map kv.1))).map (fun kv => kv.2) }
  sortChanges withExits

/-- One row of the dramas table paired with its snapshot key
(crawl_time, platform): src/database.py CREATE TABLE dramas. -/
structure DbRow where
  crawl_time : Nat
  platform : String
  drama : Drama
  deriving DecidableEq, Repr

/-- Embedding of get_dramas_at (src/database.py 104-112): the rows of one
(crawl_time, platform) snapshot, ordered by rank ascending. -/
def get_dramas_at (db : List DbRow) (crawl_time : Nat) (platform : String) : List Drama :=
  (((db.filter (fun r => decide (r.crawl_time = crawl_time) && decide (r.platform = platform))).map
    (fun r => r.drama)).insertionSort (fun a b => a.rank ≤ b.rank))

/-- Embedding of analyze_platform_changes (src/analyzer.py 15-102): fetch the
two snapshots (an absent previous_time yields the empty previous snapshot,
line 18) and run the detector body. -/
def analyze_platform_changes (cfg : AnalysisConfig) (db : List DbRow)
    (platform : String) (current_time : Nat) (previous_time : Option Nat) : Changes :=
  let current := get_dramas_at db current_time platform
  let previous := match previous_time with
    | some t => get_dramas_at db t platform
    | none => []
  detectChanges cfg current previous

/-- Embedding of get_all_crawl_times (src/database.py 165-174): the distinct
crawl times of ALL rows (no platform filter) not older than the cutoff
`since` (in the source, utcnow minus the window in days), sorted ascending. -/
def get_all_crawl_times (db : List DbRow) (since : Nat) : List Nat :=
  (((db.filter (fun r => decide (since ≤ r.crawl_time))).map
    (fun r => r.crawl_time)).insertionSort (fun a b => a ≤ b)).dedup

/-- One row of get_theme_stats: theme, COUNT(*), AVG(rank). -/
structure ThemeStat where
  theme : String
  count : Nat
  avg_rank : Rat
  deriving DecidableEq, Repr

/-- Embedding of get_theme_stats (src/database.py 152-162): group the rows of
one (platform, crawl_time) snapshot with non-null theme by theme, with count
and average rank, ordered by count descending. SQLite leaves the order of
equal-count groups unspecified; it is modelled as first-appearance order,
which no claim depends on. -/
def get_theme_stats (db : List DbRow) (platform : String) (crawl_time : Nat) : List ThemeStat :=
  let rows := db.filter (fun r =>
    decide (r.platform = platform) && decide (r.crawl_time = crawl_time) && r.drama.theme.isSome)
  let themes := (rows.filterMap (fun r => r.drama.theme)).dedup
  let stats := themes.map (fun th =>
    let grp := rows.filter (fun r => r.drama.theme == some th)
    ⟨th, grp.length, (grp.map (fun r => (r.drama.rank : Rat))).sum / (grp.length : Rat)⟩)
  stats.insertionSort (fun a b => b.count ≤ a.count)

/-- One element of the theme-trend output (src/analyzer.py 129-135). -/
structure TrendRec where
  theme : String
  current_count : Nat
  previous_count : Nat
  change : Int
  avg_rank : Option Rat
  deriving DecidableEq, Repr

/-- Embedding of analyze_theme_trends (src/analyzer.py 105-138): with fewer
than two distinct global crawl times in the window the result is empty;
otherwise themes of the earliest and latest global times are compared.
Python set iteration order (line 120) is unspecified; it is modelled as
first-appearance order over latest keys then earliest keys, which only
permutes equal-change ties in the final stable sort. -/
def analyze_theme_trends (db : List DbRow) (since : Nat) (platform : String) : List TrendRec :=
  let crawl_times := get_all_crawl_times db since
  if crawl_times.length < 2 then [] else
  let latest := crawl_times.getLastD 0
  let earliest := crawl_times.headD 0
  let latest_themes := get_theme_stats db platform latest
  let earliest_themes := get_theme_stats db platform earliest
  let latest_map := latest_themes.foldl (fun m t => insertAL m t.theme t) []
  let earliest_map := earliest_themes.foldl (fun m t => insertAL m t.theme t) []
  let all_themes := (latest_map.map (fun kv => kv.1) ++ earliest_map.map (fun kv => kv.1)).dedup
  let trends := all_themes.filterMap (fun th =>
    if th = "" then none
    else
      let now_count := ((lookupAL latest_map th).map (fun t => t.count)).getD 0
      let then_count := ((lookupAL earliest_map th).map (fun t => t.count)).getD 0
      some (⟨th, now_count, then_count, (now_count : Int) - (then_count : Int),
        (lookupAL latest_map th).map (fun t => t.avg_rank)⟩ : TrendRec))
  trends.insertionSort (fun a b => b.change ≤ a.change)

/-- The comparison window endpoints picked by analyze_theme_trends
(src/analyzer.py 107-112): head and last of the global distinct crawl-time
list, or none when that list has fewer than two elements. The source
identifier plays no part in the selection. -/
def trendEndpoints (db : List DbRow) (since : Nat) : Option (Nat × Nat) :=
  let crawl_times := get_all_crawl_times db since
  if crawl_times.length < 2 then none
  else some (crawl_times.headD 0, crawl_times.getLastD 0)

/-- One element of the changes_clean lists of export_analysis_data
(src/export.py 68-80): the eight projected fields, each read with
`item.get`, hence absent (`none`) for record kinds that lack the key. -/
structure ExportChangeItem where
  rank : Option Int
  drama_id : Option String
  title : Option String
  theme : Option String
  prev_rank : Option Int
  rank_change : Option Int
  read_change_pct : Option Rat
  collect_change_pct : Option Rat
  deriving DecidableEq, Repr

/-- Projection of a bare drama record (new_entries, exits): no delta keys. -/
def exportDramaItem (d : Drama) : ExportChangeItem :=
  ⟨some d.rank, some d.drama_id, some d.title, d.theme, none, none, none, none⟩

/-- Projection of a rank-change record (rank_surges, rank_drops). -/
def exportRankItem (x : RankChangeRec) : ExportChangeItem :=
  ⟨some x.drama.rank, some x.drama.drama_id, some x.drama.title, x.drama.theme,
   some x.prev_rank, some x.rank_change, none, none⟩

/-- Projection of a read-surge record. -/
def exportReadItem (x : ReadSurgeRec) : ExportChangeItem :=
  ⟨some x.drama.rank, some x.drama.drama_id, some x.drama.title, x.drama.theme,
   none, none, some x.read_change_pct, none⟩

/-- Projection of a collect-surge record. -/
def exportCollectItem (x : CollectSurgeRec) : ExportChangeItem :=
  ⟨some x.drama.rank, some x.drama.drama_id, some x.drama.title, x.drama.theme,
   none, none, none, some x.collect_change_pct⟩

/-- The six lists of changes_clean (src/export.py 64-66): the export emits
new_entries, rank_surges, rank_drops, read_surges, collect_surges and exits;
top_movers_up and top_movers_down have no counterpart. -/
structure ExportChanges where
  new_entries : List ExportChangeItem
  rank_surges : List ExportChangeItem
  rank_drops : List ExportChangeItem
  read_surges : List ExportChangeItem
  collect_surges : List ExportChangeItem
  exits : List ExportChangeItem
  deriving DecidableEq, Repr

/-- The changes_clean projection of export_analysis_data (src/export.py
63-80): each of the six exported sequences is mapped elementwise, in order. -/
def export_analysis_changes (ch : Changes) : ExportChanges :=
  ⟨ch.new_entries.map exportDramaItem,
   ch.rank_surges.map exportRankItem,
   ch.rank_drops.map exportRankItem,
   ch.read_surges.map exportReadItem,
   ch.collect_surges.map exportCollectItem,
   ch.exits.map exportDramaItem⟩

/-- Contribution of one current item to new_entries (src/analyzer.py 36-38). -/
def newEntriesOf (pm : List (String × Drama)) (d : Drama) : List Drama :=
  match lookupAL pm d.drama_id with
  | none => [d]
  | some _ => []

/-- Contribution of one current item to rank_surges (src/analyzer.py 46-49). -/
def rankSurgesOf (cfg : AnalysisConfig) (pm : List (String × Drama)) (d : Drama) :
    List RankChangeRec :=
  match lookupAL pm d.drama_id with
  | none => []
  | some prev =>
      let rank_diff := prev.rank - d.rank
      if cfg.rank_surge_threshold ≤ rank_diff then [⟨d, prev.rank, rank_diff⟩] else []

/-- Contribution of one current item to rank_drops (src/analyzer.py 50-53). -/
def rankDropsOf (cfg : AnalysisConfig) (pm : List (String × Drama)) (d : Drama) :
    List RankChangeRec :=
  match lookupAL pm d.drama_id with
  | none => []
  | some prev =>
      let rank_diff := prev.rank - d.rank
      if cfg.rank_surge_threshold ≤ rank_diff then []
      else if rank_diff ≤ -cfg.rank_surge_threshold then [⟨d, prev.rank, rank_diff⟩] else []

/-- Contribution of one current item to top_movers_up (src/analyzer.py 55-58). -/
def moversUpOf (pm : List (String × Drama)) (d : Drama) : List RankChangeRec :=
  match lookupAL pm d.drama_id with
  | none => []
  | some prev =>
      let rank_diff := prev.rank - d.rank
      if 0 < rank_diff then [⟨d, prev.rank, rank_diff⟩] else []

/-- Contribution of one current item to top_movers_down (src/analyzer.py 59-62). -/
def moversDownOf (pm : List (String × Drama)) (d : Drama) : List RankChangeRec :=
  match lookupAL pm d.drama_id with
  | none => []
  | some prev =>
      let rank_diff := prev.rank - d.rank
      if rank_diff < 0 then [⟨d, prev.rank, rank_diff⟩] else []

/-- Contribution of one current item to read_surges (src/analyzer.py 64-74). -/
def readSurgesOf (cfg : AnalysisConfig) (pm : List (String × Drama)) (d : Drama) :
    List ReadSurgeRec :=
  match lookupAL pm d.drama_id with
  | none => []
  | some prev => readSurgeEntry cfg prev d

/-- Contribution of one current item to collect_surges (src/analyzer.py 76-86). -/
def collectSurgesOf (cfg : AnalysisConfig) (pm : List (String × Drama)) (d : Drama) :
    List CollectSurgeRec :=
  match lookupAL pm d.drama_id with
  | none => []
  | some prev => collectSurgeEntry cfg prev d

/-- Fixture: item A at rank 1 in the duplicate-id previous snapshot. -/
def dupFirst : Drama := ⟨"A", "Title A", none, 1, none, none⟩

/-- Fixture: a second item with the same id A, at rank 5. -/
def dupSecond : Drama := ⟨"A", "Title A bis", none, 5, none, none⟩

/-- Fixture: item A at rank 1 in the current snapshot. -/
def currA : Drama := ⟨"A", "Title A", none, 1, none, none⟩

/-- Fixture for the concrete spec scenario: previous A at rank 1. -/
def scA : Drama := ⟨"A", "Title A", none, 1, none, none⟩

/-- Fixture: previous B at rank 2 with read count 100. -/
def scB : Drama := ⟨"B", "Title B", none, 2, some 100, none⟩

/-- Fixture: previous C at rank 3. -/
def scC : Drama := ⟨"C", "Title C", none, 3, none, none⟩

/-- Fixture: current B at rank 1 with read count 160. -/
def scB2 : Drama := ⟨"B", "Title B", none, 1, some 160, none⟩

/-- Fixture: current D at rank 2. -/
def scD : Drama := ⟨"D", "Title D", none, 2, none, none⟩

/-- Fixture: current A at rank 3. -/
def scA2 : Drama := ⟨"A", "Title A", none, 3, none, none⟩

/-- The previous snapshot of the concrete spec scenario. -/
def scPrev : List Drama := [scA, scB, scC]

/-- The current snapshot of the concrete spec scenario. -/
def scCurr : List Drama := [scB2, scD, scA2]

/-- The scenario thresholds: surge_threshold 2, read surge 50, collect 30. -/
def scCfg : AnalysisConfig := ⟨2, 50, 30⟩

/-- Fixture: item M at rank 5 previously. -/
def msPrev : Drama := ⟨"M", "Title M", none, 5, none, none⟩

/-- Fixture: item M now at rank 1 (rank change +4). -/
def msCurr : Drama := ⟨"M", "Title M", none, 1, none, none⟩

/-- Fixture DB: source Q has a snapshot only at time 1. -/
def rowQ1 : DbRow := ⟨1, "Q", ⟨"q1", "Title Q1", some "war", 1, none, none⟩⟩

/-- Fixture DB: source P has a snapshot at time 2. -/
def rowP2 : DbRow := ⟨2, "P", ⟨"p1", "Title P1", some "romance", 1, none, none⟩⟩

/-- Fixture DB: source P has a snapshot at time 3. -/
def rowP3 : DbRow := ⟨3, "P", ⟨"p1", "Title P1", some "romance", 1, none, none⟩⟩

/-- Fixture DB with two sources crawled at disjoint times. -/
def trendDb : List DbRow := [rowQ1, rowP2, rowP3]

attribute [ext] Changes

theorem stepItem_new_entries (cfg : AnalysisConfig) (pm : List (String × Drama))
    (ch : Changes) (d : Drama) :
    (stepItem cfg pm ch d).new_entries = ch.new_entries ++ newEntriesOf pm d := by
  cases h : lookupAL pm d.drama_id <;> simp [stepItem, newEntriesOf, h]

theorem stepItem_rank_surges (cfg : AnalysisConfig) (pm : List (String × Drama))
    (ch : Changes) (d : Drama) :
    (stepItem cfg pm ch d).rank_surges = ch.rank_surges ++ rankSurgesOf cfg pm d := by
  cases h : lookupAL pm d.drama_id <;> simp [stepItem, rankSurgesOf, h]

theorem stepItem_rank_drops (cfg : AnalysisConfig) (pm : List (String × Drama))
    (ch : Changes) (d : Drama) :
    (stepItem cfg pm ch d).rank_drops = ch.rank_drops ++ rankDropsOf cfg pm d := by
  cases h : lookupAL pm d.drama_id <;> simp [stepItem, rankDropsOf, h]

theorem stepItem_top_movers_up (cfg : AnalysisConfig) (pm : List (String × Drama))
    (ch : Changes) (d : Drama) :
    (stepItem cfg pm ch d).top_movers_up = ch.top_movers_up ++ moversUpOf pm d := by
  cases h : lookupAL pm d.drama_id <;> simp [stepItem, moversUpOf, h]

theorem stepItem_top_movers_down (cfg : AnalysisConfig) (pm : List (String × Drama))
    (ch : Changes) (d : Drama) :
    (stepItem cfg pm ch d).top_movers_down = ch.top_movers_down ++ moversDownOf pm d := by
  cases h : lookupAL pm d.drama_id <;> simp [stepItem, moversDownOf, h]

theorem stepItem_read_surges (cfg : AnalysisConfig) (pm : List (String × Drama))
    (ch : Changes) (d : Drama) :
    (stepItem cfg pm ch d).read_surges = ch.read_surges ++ readSurgesOf cfg pm d := by
  cases h : lookupAL pm d.drama_id <;> simp [stepItem, readSurgesOf, h]

theorem stepItem_collect_surges (cfg : AnalysisConfig) (pm : List (String × Drama))
    (ch : Changes) (d : Drama) :
    (stepItem cfg pm ch d).collect_surges = ch.collect_surges ++ collectSurgesOf cfg pm d := by
  cases h : lookupAL pm d.drama_id <;> simp [stepItem, collectSurgesOf, h]

theorem stepItem_exits (cfg : AnalysisConfig) (pm : List (String × Drama))
    (ch : Changes) (d : Drama) :
    (stepItem cfg pm ch d).exits = ch.exits := by
  cases h : lookupAL pm d.drama_id <;> simp [stepItem, h]

theorem foldl_stepItem_new_entries (cfg : AnalysisConfig) (pm : List (String × Drama))
    (l : List Drama) (ch : Changes) :
    (l.foldl (stepItem cfg pm) ch).new_entries = ch.new_entries ++ l.flatMap (newEntriesOf pm) := by
  induction l generalizing ch with
  | nil => simp
  | cons d t ih => simp [List.foldl_cons, ih, stepItem_new_entries]

theorem foldl_stepItem_rank_surges (cfg : AnalysisConfig) (pm : List (String × Drama))
    (l : List Drama) (ch : Changes) :
    (l.foldl (stepItem cfg pm) ch).rank_surges =
      ch.rank_surges ++ l.flatMap (rankSurgesOf cfg pm) := by
  induction l generalizing ch with
  | nil => simp
  | cons d t ih => simp [List.foldl_cons, ih, stepItem_rank_surges]

theorem foldl_stepItem_rank_drops (cfg : AnalysisConfig) (pm : List (String × Drama))
    (l : List Drama) (ch : Changes) :
    (l.foldl (stepItem cfg pm) ch).rank_drops =
      ch.rank_drops ++ l.flatMap (rankDropsOf cfg pm) := by
  induction l generalizing ch with
  | nil => simp
  | cons d t ih => simp [List.foldl_cons, ih, stepItem_rank_drops]

theorem foldl_stepItem_top_movers_up (cfg : AnalysisConfig) (pm : List (String × Drama))
    (l : List Drama) (ch : Changes) :
    (l.foldl (stepItem cfg pm) ch).top_movers_up =
      ch.top_movers_up ++ l.flatMap (moversUpOf pm) := by
  induction l generalizing ch with
  | nil => simp
  | cons d t ih => simp [List.foldl_cons, ih, stepItem_top_movers_up]

theorem foldl_stepItem_top_movers_down (cfg : AnalysisConfig) (pm : List (String × Drama))
    (l : List Drama) (ch : Changes) :
    (l.foldl (stepItem cfg pm) ch).top_movers_down =
      ch.top_movers_down ++ l.flatMap (moversDownOf pm) := by
  induction l generalizing ch with
  | nil => simp
  | cons d t ih => simp [List.foldl_cons, ih, stepItem_top_movers_down]

theorem foldl_stepItem_read_surges (cfg : AnalysisConfig) (pm : List (String × Drama))
    (l : List Drama) (ch : Changes) :
    (l.foldl (stepItem cfg pm) ch).read_surges =
      ch.read_surges ++ l.flatMap (readSurgesOf cfg pm) := by
  induction l generalizing ch with
  | nil => simp
  | cons d t ih => simp [List.foldl_cons, ih, stepItem_read_surges]

theorem foldl_stepItem_collect_surges (cfg : AnalysisConfig) (pm : List (String × Drama))
    (l : List Drama) (ch : Changes) :
    (l.foldl (stepItem cfg pm) ch).collect_surges =
      ch.collect_surges ++ l.flatMap (collectSurgesOf cfg pm) := by
  induction l generalizing ch with
  | nil => simp
  | cons d t ih => simp [List.foldl_cons, ih, stepItem_collect_surges]

theorem foldl_stepItem_exits (cfg : AnalysisConfig) (pm : List (String × Drama))
    (l : List Drama) (ch : Changes) :
    (l.foldl (stepItem cfg pm) ch).exits = ch.exits := by
  induction l generalizing ch with
  | nil => simp
  | cons d t ih => simp [List.foldl_cons, ih, stepItem_exits]

theorem detectChanges_new_entries (cfg : AnalysisConfig) (current previous : List Drama) :
    (detectChanges cfg current previous).new_entries =
      (current.flatMap (newEntriesOf (buildDramaMap previous))).insertionSort
        (fun a b => a.rank ≤ b.rank) := by
  simp [detectChanges, sortChanges, foldl_stepItem_new_entries, emptyChanges]

theorem detectChanges_rank_surges (cfg : AnalysisConfig) (current previous : List Drama) :
    (detectChanges cfg current previous).rank_surges =
      (current.flatMap (rankSurgesOf cfg (buildDramaMap previous))).insertionSort
        (fun a b => b.rank_change ≤ a.rank_change) := by
  simp [detectChanges, sortChanges, foldl_stepItem_rank_surges, emptyChanges]

theorem detectChanges_rank_drops (cfg : AnalysisConfig) (current previous : List Drama) :
    (detectChanges cfg current previous).rank_drops =
      (current.flatMap (rankDropsOf cfg (buildDramaMap previous))).insertionSort
        (fun a b => a.rank_change ≤ b.rank_change) := by
  simp [detectChanges, sortChanges, foldl_stepItem_rank_drops, emptyChanges]

theorem detectChanges_top_movers_up (cfg : AnalysisConfig) (current previous : List Drama) :
    (detectChanges cfg current previous).top_movers_up =
      (current.flatMap (moversUpOf (buildDramaMap previous))).insertionSort
        (fun a b => b.rank_change ≤ a.rank_change) := by
  simp [detectChanges, sortChanges, foldl_stepItem_top_movers_up, emptyChanges]

theorem detectChanges_top_movers_down (cfg : AnalysisConfig) (current previous : List Drama) :
    (detectChanges cfg current previous).top_movers_down =
      (current.flatMap (moversDownOf (buildDramaMap previous))).insertionSort
        (fun a b => a.rank_change ≤ b.rank_change) := by
  simp [detectChanges, sortChanges, foldl_stepItem_top_movers_down, emptyChanges]

theorem detectChanges_read_surges (cfg : AnalysisConfig) (current previous : List Drama) :
    (detectChanges cfg current previous).read_surges =
      (current.flatMap (readSurgesOf cfg (buildDramaMap previous))).insertionSort
        (fun a b => b.read_change_pct ≤ a.read_change_pct) := by
  simp [detectChanges, sortChanges, foldl_stepItem_read_surges, emptyChanges]

theorem detectChanges_collect_surges (cfg : AnalysisConfig) (current previous : List Drama) :
    (detectChanges cfg current previous).collect_surges =
      (current.flatMap (collectSurgesOf cfg (buildDramaMap previous))).insertionSort
        (fun a b => b.collect_change_pct ≤ a.collect_change_pct) := by
  simp [detectChanges, sortChanges, foldl_stepItem_collect_surges, emptyChanges]

theorem detectChanges_exits (cfg : AnalysisConfig) (current previous : List Drama) :
    (detectChanges cfg current previous).exits =
      ((buildDramaMap previous).filter
        (fun kv => !(containsKeyAL (buildDramaMap current) kv.1))).map (fun kv => kv.2) := by
  simp [detectChanges, sortChanges, foldl_stepItem_exits, emptyChanges]

theorem lookupAL_insertAL {α : Type} (m : List (String × α)) (k k2 : String) (v : α) :
    lookupAL (insertAL m k v) k2 = if k2 = k then some v else lookupAL m k2 := by
  induction m with
  | nil =>
      by_cases h : k2 = k <;> simp [insertAL, lookupAL, h]
  | cons p t ih =>
      obtain ⟨k1, v1⟩ := p
      by_cases hk : k = k1
      · subst hk
        by_cases h2 : k2 = k <;> simp [insertAL, lookupAL, h2]
      · by_cases h2 : k2 = k1
        · subst h2
          simp [insertAL, lookupAL, hk, Ne.symm hk]
        · simp [insertAL, lookupAL, hk, h2, ih]

theorem insertAL_insertAL {α : Type} (m : List (String × α)) (k : String) (v1 v2 : α) :
    insertAL (insertAL m k v1) k v2 = insertAL m k v2 := by
  induction m with
  | nil => simp [insertAL]
  | cons p t ih =>
      obtain ⟨k1, w⟩ := p
      by_cases hk : k = k1 <;> simp [insertAL, hk, ih]

theorem lookupAL_isSome_of_mem {α : Type} (m : List (String × α)) (k : String) (v : α)
    (h : (k, v) ∈ m) : (lookupAL m k).isSome := by
  induction m with
  | nil => simp at h
  | cons p t ih =>
      obtain ⟨k1, v1⟩ := p
      rcases List.mem_cons.mp h with h1 | h1
      · cases h1
        simp [lookupAL]
      · by_cases hk : k = k1
        · simp [lookupAL, hk]
        · simpa [lookupAL, hk] using ih h1

theorem lookupAL_foldl_insert (l : List Drama) (m : List (String × Drama)) (k : String) :
    lookupAL (l.foldl (fun m d => insertAL m d.drama_id d) m) k =
      (l.reverse.find? (fun d => d.drama_id == k)).or (lookupAL m k) := by
  induction l generalizing m with
  | nil => simp
  | cons d t ih =>
      rw [List.foldl_cons, ih, List.reverse_cons, List.find?_append]
      cases hf : t.reverse.find? (fun d => d.drama_id == k)
      · by_cases hk : k = d.drama_id
        · subst hk
          simp [lookupAL_insertAL, List.find?, Option.or]
        · simp [lookupAL_insertAL, hk, List.find?, Option.or, beq_false_of_ne (Ne.symm hk)]
      · simp [Option.or]

theorem find?_reverse_of_nodup_ids (l : List Drama) (d : Drama)
    (hids : (l.map Drama.drama_id).Nodup) (hd : d ∈ l) :
    l.reverse.find? (fun x => x.drama_id == d.drama_id) = some d := by
  induction l with
  | nil => simp at hd
  | cons a t ih =>
      rw [List.map_cons, List.nodup_cons] at hids
      rw [List.reverse_cons, List.find?_append]
      rcases List.mem_cons.mp hd with h1 | h1
      · subst h1
        have hnone : t.reverse.find? (fun x => x.drama_id == d.drama_id) = none := by
          rw [List.find?_eq_none]
          intro x hx
          simp only [beq_iff_eq]
          intro hxe
          exact hids.1 (by
            rw [← hxe]
            exact List.mem_map_of_mem Drama.drama_id (List.mem_reverse.mp hx))
        simp [hnone, Option.or, List.find?]
      · have := ih hids.2 h1
        simp [this, Option.or]

theorem lookupAL_buildDramaMap_self (l : List Drama) (d : Drama)
    (hids : (l.map Drama.drama_id).Nodup) (hd : d ∈ l) :
    lookupAL (buildDramaMap l) d.drama_id = some d := by
  rw [buildDramaMap, lookupAL_foldl_insert, find?_reverse_of_nodup_ids l d hids hd]
  simp [Option.or]

/-- C4: with an absent previous snapshot, the detector returns every current
item as a new entry, sorted ascending by current rank, and leaves the other
seven sequences of the change set empty (src/analyzer.py 18, 36-38). -/
theorem first_snapshot_all_new_entries (cfg : AnalysisConfig) (S : List Drama) :
    (detectChanges cfg S []).new_entries.Perm S ∧
    (detectChanges cfg S []).new_entries.Sorted (fun a b => a.rank ≤ b.rank) ∧
    (detectChanges cfg S []).exits = [] ∧
    (detectChanges cfg S []).rank_surges = [] ∧
    (detectChanges cfg S []).rank_drops = [] ∧
    (detectChanges cfg S []).read_surges = [] ∧
    (detectChanges cfg S []).collect_surges = [] ∧
    (detectChanges cfg S []).top_movers_up = [] ∧
    (detectChanges cfg S []).top_movers_down = [] := by
  have hne : S.flatMap (newEntriesOf (buildDramaMap [])) = S := by
    have hb : buildDramaMap [] = [] := rfl
    rw [hb]
    induction S with
    | nil => simp
    | cons d t ih => simp [List.flatMap_cons, newEntriesOf, lookupAL, ih]
  refine ⟨?_, ?_, ?_, ?_, ?_, ?_, ?_, ?_, ?_⟩
  · rw [detectChanges_new_entries, hne]
    exact List.perm_insertionSort _ _
  · rw [detectChanges_new_entries]
    haveI : IsTotal Drama (fun a b => a.rank ≤ b.rank) := ⟨fun a b => le_total _ _⟩
    haveI : IsTrans Drama (fun a b => a.rank ≤ b.rank) := ⟨fun a b c h1 h2 => le_trans h1 h2⟩
    exact List.sorted_insertionSort _ _
  · rw [detectChanges_exits]
    rfl
  · rw [detectChanges_rank_surges,
      List.flatMap_eq_nil_iff.mpr (fun d _ => by simp [rankSurgesOf, buildDramaMap, lookupAL])]
    rfl
  · rw [detectChanges_rank_drops,
      List.flatMap_eq_nil_iff.mpr (fun d _ => by simp [rankDropsOf, buildDramaMap, lookupAL])]
    rfl
  · rw [detectChanges_read_surges,
      List.flatMap_eq_nil_iff.mpr (fun d _ => by simp [readSurgesOf, buildDramaMap, lookupAL])]
    rfl
  · rw [detectChanges_collect_surges,
      List.flatMap_eq_nil_iff.mpr (fun d _ => by simp [collectSurgesOf, buildDramaMap, lookupAL])]
    rfl
  · rw [detectChanges_top_movers_up,
      List.flatMap_eq_nil_iff.mpr (fun d _ => by simp [moversUpOf, buildDramaMap, lookupAL])]
    rfl
  · rw [detectChanges_top_movers_down,
      List.flatMap_eq_nil_iff.mpr (fun d _ => by simp [moversDownOf, buildDramaMap, lookupAL])]
    rfl

/-- C6: every change set produced by the detector has rank_surges and
top_movers_up non-increasing by rank_change, rank_drops and top_movers_down
non-decreasing by rank_change, read and collect surges non-increasing by
percent change, and new entries non-decreasing by current rank
(src/analyzer.py 93-100). -/
theorem change_set_sequences_sorted (cfg : AnalysisConfig) (current previous : List Drama) :
    (detectChanges cfg current previous).rank_surges.Sorted
      (fun a b => b.rank_change ≤ a.rank_change) ∧
    (detectChanges cfg current previous).top_movers_up.Sorted
      (fun a b => b.rank_change ≤ a.rank_change) ∧
    (detectChanges cfg current previous).rank_drops.Sorted
      (fun a b => a.rank_change ≤ b.rank_change) ∧
    (detectChanges cfg current previous).top_movers_down.Sorted
      (fun a b => a.rank_change ≤ b.rank_change) ∧
    (detectChanges cfg current previous).read_surges.Sorted
      (fun a b => b.read_change_pct ≤ a.read_change_pct) ∧
    (detectChanges cfg current previous).collect_surges.Sorted
      (fun a b => b.collect_change_pct ≤ a.collect_change_pct) ∧
    (detectChanges cfg current previous).new_entries.Sorted
      (fun a b => a.rank ≤ b.rank) := by
  refine ⟨?_, ?_, ?_, ?_, ?_, ?_, ?_⟩
  · rw [detectChanges_rank_surges]
    haveI : IsTotal RankChangeRec (fun a b => b.rank_change ≤ a.rank_change) :=
      ⟨fun a b => (le_total b.rank_change a.rank_change).elim Or.inl Or.inr⟩
    haveI : IsTrans RankChangeRec (fun a b => b.rank_change ≤ a.rank_change) :=
      ⟨fun a b c h1 h2 => le_trans h2 h1⟩
    exact List.sorted_insertionSort _ _
  · rw [detectChanges_top_movers_up]
    haveI : IsTotal RankChangeRec (fun a b => b.rank_change ≤ a.rank_change) :=
      ⟨fun a b => (le_total b.rank_change a.rank_change).elim Or.inl Or.inr⟩
    haveI : IsTrans RankChangeRec (fun a b => b.rank_change ≤ a.rank_change) :=
      ⟨fun a b c h1 h2 => le_trans h2 h1⟩
    exact List.sorted_insertionSort _ _
  · rw [detectChanges_rank_drops]
    haveI : IsTotal RankChangeRec (fun a b => a.rank_change ≤ b.rank_change) :=
      ⟨fun a b => le_total _ _⟩
    haveI : IsTrans RankChangeRec (fun a b => a.rank_change ≤ b.rank_change) :=
      ⟨fun a b c h1 h2 => le_trans h1 h2⟩
    exact List.sorted_insertionSort _ _
  · rw [detectChanges_top_movers_down]
    haveI : IsTotal RankChangeRec (fun a b => a.rank_change ≤ b.rank_change) :=
      ⟨fun a b => le_total _ _⟩
    haveI : IsTrans RankChangeRec (fun a b => a.rank_change ≤ b.rank_change) :=
      ⟨fun a b c h1 h2 => le_trans h1 h2⟩
    exact List.sorted_insertionSort _ _
  · rw [detectChanges_read_surges]
    haveI : IsTotal ReadSurgeRec (fun a b => b.read_change_pct ≤ a.read_change_pct) :=
      ⟨fun a b => (le_total b.read_change_pct a.read_change_pct).elim Or.inl Or.inr⟩
    haveI : IsTrans ReadSurgeRec (fun a b => b.read_change_pct ≤ a.read_change_pct) :=
      ⟨fun a b c h1 h2 => le_trans h2 h1⟩
    exact List.sorted_insertionSort _ _
  · rw [detectChanges_collect_surges]
    haveI : IsTotal CollectSurgeRec (fun a b => b.collect_change_pct ≤ a.collect_change_pct) :=
      ⟨fun a b => (le_total b.collect_change_pct a.collect_change_pct).elim Or.inl Or.inr⟩
    haveI : IsTrans CollectSurgeRec (fun a b => b.collect_change_pct ≤ a.collect_change_pct) :=
      ⟨fun a b c h1 h2 => le_trans h2 h1⟩
    exact List.sorted_insertionSort _ _
  · rw [detectChanges_new_entries]
    haveI : IsTotal Drama (fun a b => a.rank ≤ b.rank) := ⟨fun a b => le_total _ _⟩
    haveI : IsTrans Drama (fun a b => a.rank ≤ b.rank) := ⟨fun a b c h1 h2 => le_trans h1 h2⟩
    exact List.sorted_insertionSort _ _

/-- C9: with fewer than two distinct crawl times in the trailing window the
trend analyzer returns the empty sequence (src/analyzer.py 107-109). -/
theorem insufficient_history_empty_trends (db : List DbRow) (since : Nat) (platform : String)
    (h : (get_all_crawl_times db since).length < 2) :
    analyze_theme_trends db since platform = [] := by
  rw [analyze_theme_trends, if_pos h]

/-- Witness for C9 at the empty database: no crawl times at all. -/
theorem insufficient_history_empty_trends_witness :
    (get_all_crawl_times [] 0).length < 2 ∧ analyze_theme_trends [] 0 "P" = [] :=
  ⟨by decide, insufficient_history_empty_trends [] 0 "P" (by decide)⟩

/-- C10: the export projection emits exactly the six sequences new_entries,
rank_surges, rank_drops, read_surges, collect_surges and exits, each mapped
elementwise (hence order-preserving), and is entirely independent of
top_movers_up and top_movers_down (src/export.py 63-80). -/
theorem export_emits_six_sequences_in_order (c : Changes) :
    (∀ up down, export_analysis_changes
      { c with top_movers_up := up, top_movers_down := down } = export_analysis_changes c) ∧
    (export_analysis_changes c).new_entries = c.new_entries.map exportDramaItem ∧
    (export_analysis_changes c).rank_surges = c.rank_surges.map exportRankItem ∧
    (export_analysis_changes c).rank_drops = c.rank_drops.map exportRankItem ∧
    (export_analysis_changes c).read_surges = c.read_surges.map exportReadItem ∧
    (export_analysis_changes c).collect_surges = c.collect_surges.map exportCollectItem ∧
    (export_analysis_changes c).exits = c.exits.map exportDramaItem :=
  ⟨fun _ _ => rfl, rfl, rfl, rfl, rfl, rfl, rfl⟩

/-- Counterexample to C1: on a previous snapshot with a duplicated item id
the detector does not fail; it silently produces an ordinary diff (here a
nonempty top_movers_up computed against the later duplicate). -/
theorem duplicate_id_produces_diff :
    dupFirst.drama_id = dupSecond.drama_id ∧ dupFirst ≠ dupSecond ∧
    detectChanges defaultConfig [currA] [dupFirst, dupSecond] =
      { emptyChanges with top_movers_up := [⟨currA, 5, 4⟩] } := by
  refine ⟨rfl, by decide, by decide⟩

theorem insertAL_of_not_mem_keys {α : Type} (m : List (String × α)) (k : String) (v : α)
    (h : k ∉ m.map Prod.fst) : insertAL m k v = m ++ [(k, v)] := by
  induction m with
  | nil => simp [insertAL]
  | cons p t ih =>
      obtain ⟨k1, v1⟩ := p
      rw [List.map_cons, List.mem_cons] at h
      push_neg at h
      simp [insertAL, h.1, ih h.2]

theorem mem_insertAL {α : Type} {m : List (String × α)} {k : String} {v : α} {kv : String × α}
    (h : kv ∈ insertAL m k v) : kv = (k, v) ∨ kv ∈ m := by
  induction m with
  | nil =>
      simp [insertAL] at h
      exact Or.inl h
  | cons p t ih =>
      obtain ⟨k1, v1⟩ := p
      by_cases hk : k = k1
      · subst hk
        simp only [insertAL, if_pos rfl] at h
        rcases List.mem_cons.mp h with h1 | h1
        · exact Or.inl h1
        · exact Or.inr (List.mem_cons_of_mem _ h1)
      · simp only [insertAL, if_neg hk] at h
        rcases List.mem_cons.mp h with h1 | h1
        · exact Or.inr (h1 ▸ List.mem_cons_self _ _)
        · rcases ih h1 with h2 | h2
          · exact Or.inl h2
          · exact Or.inr (List.mem_cons_of_mem _ h2)

theorem keys_insertAL {α : Type} (m : List (String × α)) (k : String) (v : α) :
    (insertAL m k v).map Prod.fst =
      if k ∈ m.map Prod.fst then m.map Prod.fst else m.map Prod.fst ++ [k] := by
  induction m with
  | nil => simp [insertAL]
  | cons p t ih =>
      obtain ⟨k1, v1⟩ := p
      by_cases hk : k = k1
      · subst hk
        simp [insertAL]
      · by_cases hm : k ∈ t.map Prod.fst <;>
          simp [insertAL, hk, ih, hm, List.mem_cons]

theorem keys_nodup_insertAL {α : Type} (m : List (String × α)) (k : String) (v : α)
    (h : (m.map Prod.fst).Nodup) : ((insertAL m k v).map Prod.fst).Nodup := by
  rw [keys_insertAL]
  split
  · exact h
  case isFalse hk =>
      refine List.Nodup.append h (List.nodup_singleton k) ?_
      intro a ha hb
      rw [List.mem_singleton] at hb
      subst hb
      exact hk ha

theorem buildDramaMap_wf (p : List Drama) :
    ((buildDramaMap p).map Prod.fst).Nodup ∧
    ∀ kv ∈ buildDramaMap p, kv.1 = kv.2.drama_id := by
  suffices h : ∀ (m : List (String × Drama)), (m.map Prod.fst).Nodup →
      (∀ kv ∈ m, kv.1 = kv.2.drama_id) →
      (((p.foldl (fun m d => insertAL m d.drama_id d) m).map Prod.fst).Nodup ∧
        ∀ kv ∈ p.foldl (fun m d => insertAL m d.drama_id d) m, kv.1 = kv.2.drama_id) by
    exact h [] (by simp) (by simp)
  induction p with
  | nil =>
      intro m h1 h2
      exact ⟨h1, h2⟩
  | cons d t ih =>
      intro m h1 h2
      rw [List.foldl_cons]
      refine ih _ (keys_nodup_insertAL m _ _ h1) ?_
      intro kv hkv
      rcases mem_insertAL hkv with h3 | h3
      · subst h3
        rfl
      · exact h2 kv h3

theorem buildDramaMap_rebuild_aux (m acc : List (String × Drama))
    (hnd : ((acc ++ m).map Prod.fst).Nodup)
    (hid : ∀ kv ∈ m, kv.1 = kv.2.drama_id) :
    (m.map (fun kv => kv.2)).foldl (fun m d => insertAL m d.drama_id d) acc = acc ++ m := by
  induction m generalizing acc with
  | nil => simp
  | cons p t ih =>
      obtain ⟨k, v⟩ := p
      have hk : k = v.drama_id := hid (k, v) (List.mem_cons_self _ _)
      rw [List.map_cons, List.foldl_cons]
      have hknotin : k ∉ acc.map Prod.fst := by
        intro hmem
        have hnd2 : (acc.map Prod.fst ++ k :: t.map Prod.fst).Nodup := by
          simpa using hnd
        exact (List.nodup_append.mp hnd2).2.2 hmem (by simp)
      have hins : insertAL acc v.drama_id v = acc ++ [(k, v)] := by
        rw [← hk]
        exact insertAL_of_not_mem_keys acc k v hknotin
      rw [hins]
      have hstep := ih (acc ++ [(k, v)])
        (by simpa [List.append_assoc] using hnd)
        (fun kv hkv => hid kv (List.mem_cons_of_mem _ hkv))
      rw [hstep, List.append_assoc]
      rfl

/-- Rebuilding the identity map from its own value list is the identity: the
value list of buildDramaMap is the snapshot deduplicated dict-style, one
record per id at the first occurrence position holding the last occurrence
value, and it induces the same map. -/
theorem buildDramaMap_rebuild (p : List Drama) :
    buildDramaMap ((buildDramaMap p).map (fun kv => kv.2)) = buildDramaMap p := by
  obtain ⟨h1, h2⟩ := buildDramaMap_wf p
  have h := buildDramaMap_rebuild_aux (buildDramaMap p) [] (by simpa using h1) h2
  simpa [buildDramaMap] using h

/-- C1 amended: a duplicate item id within one snapshot is silently
tolerated rather than fatal: the identity map of src/analyzer.py line 20
resolves every id to its LAST occurrence in the snapshot (later overwrites
earlier), and the detector consumes the previous snapshot only through that
map, so its diff equals the diff of the dict-style deduplication of the
previous snapshot — one record per id, at the first occurrence position,
holding the last occurrence record. -/
theorem duplicate_id_last_wins (cfg : AnalysisConfig) (current previous : List Drama) :
    (∀ k, lookupAL (buildDramaMap previous) k =
      previous.reverse.find? (fun d => d.drama_id == k)) ∧
    detectChanges cfg current previous =
      detectChanges cfg current ((buildDramaMap previous).map (fun kv => kv.2)) := by
  constructor
  · intro k
    rw [buildDramaMap, lookupAL_foldl_insert]
    cases previous.reverse.find? (fun d => d.drama_id == k) <;> simp [lookupAL, Option.or]
  · have hm := buildDramaMap_rebuild previous
    simp only [detectChanges, hm]

/-- C5: comparing a snapshot with unique item ids to itself under positive
thresholds yields the all-empty change set (src/analyzer.py 34-102). -/
theorem self_comparison_empty_diff (cfg : AnalysisConfig) (S : List Drama)
    (hids : (S.map Drama.drama_id).Nodup)
    (hs : 0 < cfg.rank_surge_threshold)
    (hr : 0 < cfg.read_count_surge_pct)
    (hc : 0 < cfg.collect_surge_pct) :
    detectChanges cfg S S = emptyChanges := by
  have hlook : ∀ d ∈ S, lookupAL (buildDramaMap S) d.drama_id = some d :=
    fun d hd => lookupAL_buildDramaMap_self S d hids hd
  have hne : S.flatMap (newEntriesOf (buildDramaMap S)) = [] :=
    List.flatMap_eq_nil_iff.mpr (fun d hd => by simp [newEntriesOf, hlook d hd])
  have hsur : S.flatMap (rankSurgesOf cfg (buildDramaMap S)) = [] :=
    List.flatMap_eq_nil_iff.mpr (fun d hd => by
      simp only [rankSurgesOf, hlook d hd, sub_self]
      rw [if_neg (not_le.mpr hs)])
  have hdrop : S.flatMap (rankDropsOf cfg (buildDramaMap S)) = [] :=
    List.flatMap_eq_nil_iff.mpr (fun d hd => by
      simp only [rankDropsOf, hlook d hd, sub_self]
      split
      · rfl
      · rw [if_neg (by omega)])
  have hup : S.flatMap (moversUpOf (buildDramaMap S)) = [] :=
    List.flatMap_eq_nil_iff.mpr (fun d hd => by
      simp only [moversUpOf, hlook d hd, sub_self]
      rw [if_neg (by omega)])
  have hdown : S.flatMap (moversDownOf (buildDramaMap S)) = [] :=
    List.flatMap_eq_nil_iff.mpr (fun d hd => by
      simp only [moversDownOf, hlook d hd, sub_self]
      rw [if_neg (by omega)])
  have hread : S.flatMap (readSurgesOf cfg (buildDramaMap S)) = [] :=
    List.flatMap_eq_nil_iff.mpr (fun d hd => by
      simp only [readSurgesOf, hlook d hd, readSurgeEntry, sub_self, Int.cast_zero,
        zero_div, zero_mul]
      split
      · rw [if_neg (not_le.mpr hr)]
      · rfl)
  have hcol : S.flatMap (collectSurgesOf cfg (buildDramaMap S)) = [] :=
    List.flatMap_eq_nil_iff.mpr (fun d hd => by
      simp only [collectSurgesOf, hlook d hd, collectSurgeEntry, sub_self, Int.cast_zero,
        zero_div, zero_mul]
      split
      · rw [if_neg (not_le.mpr hc)]
      · rfl)
  have hex : (buildDramaMap S).filter
      (fun kv => !(containsKeyAL (buildDramaMap S) kv.1)) = [] := by
    rw [List.filter_eq_nil_iff]
    intro kv hkv
    obtain ⟨k, v⟩ := kv
    have hsome : (lookupAL (buildDramaMap S) k).isSome :=
      lookupAL_isSome_of_mem _ k v hkv
    simp [containsKeyAL, hsome]
  refine Changes.ext ?_ ?_ ?_ ?_ ?_ ?_ ?_ ?_
  · rw [detectChanges_new_entries, hne]
    rfl
  · rw [detectChanges_rank_surges, hsur]
    rfl
  · rw [detectChanges_rank_drops, hdrop]
    rfl
  · rw [detectChanges_read_surges, hread]
    rfl
  · rw [detectChanges_collect_surges, hcol]
    rfl
  · rw [detectChanges_exits, hex]
    rfl
  · rw [detectChanges_top_movers_up, hup]
    rfl
  · rw [detectChanges_top_movers_down, hdown]
    rfl

/-- Witness for C5 at a concrete two-item snapshot and default thresholds. -/
theorem self_comparison_empty_diff_witness :
    (([scA, scB].map Drama.drama_id).Nodup) ∧
    detectChanges defaultConfig [scA, scB] [scA, scB] = emptyChanges :=
  ⟨by decide,
   self_comparison_empty_diff defaultConfig [scA, scB] (by decide) (by decide)
     (by decide) (by decide)⟩

/-- C7: every element of read_surges (resp. collect_surges) carries a
strictly positive previous metric value: an item whose previous read or
collect count is zero or missing is never flagged (src/analyzer.py 64-86). -/
theorem metric_surges_positive_prev (cfg : AnalysisConfig) (current previous : List Drama) :
    (∀ r ∈ (detectChanges cfg current previous).read_surges, 0 < r.prev_read_count) ∧
    (∀ r ∈ (detectChanges cfg current previous).collect_surges, 0 < r.prev_collect_count) := by
  constructor
  · intro r hr
    rw [detectChanges_read_surges] at hr
    have hr2 := (List.perm_insertionSort _ _).mem_iff.mp hr
    obtain ⟨d, _, hm⟩ := List.mem_flatMap.mp hr2
    cases hlk : lookupAL (buildDramaMap previous) d.drama_id with
    | none => simp [readSurgesOf, hlk] at hm
    | some prev =>
        simp only [readSurgesOf, hlk, readSurgeEntry] at hm
        split at hm
        case isTrue h0 =>
          split at hm
          · rw [List.mem_singleton] at hm
            subst hm
            exact h0
          · simp at hm
        case isFalse h0 => simp at hm
  · intro r hr
    rw [detectChanges_collect_surges] at hr
    have hr2 := (List.perm_insertionSort _ _).mem_iff.mp hr
    obtain ⟨d, _, hm⟩ := List.mem_flatMap.mp hr2
    cases hlk : lookupAL (buildDramaMap previous) d.drama_id with
    | none => simp [collectSurgesOf, hlk] at hm
    | some prev =>
        simp only [collectSurgesOf, hlk, collectSurgeEntry] at hm
        split at hm
        case isTrue h0 =>
          split at hm
          · rw [List.mem_singleton] at hm
            subst hm
            exact h0
          · simp at hm
        case isFalse h0 => simp at hm

/-- C8: with the metric thresholds fixed, raising the rank-surge threshold
only ever shrinks rank_surges: an item flagged at the higher threshold is
flagged at the lower one (src/analyzer.py 46-49). -/
theorem rank_surges_monotone (current previous : List Drama) (t1 t2 : Int) (rp cp : Rat)
    (hle : t1 ≤ t2) (r : RankChangeRec)
    (hmem : r ∈ (detectChanges ⟨t2, rp, cp⟩ current previous).rank_surges) :
    r ∈ (detectChanges ⟨t1, rp, cp⟩ current previous).rank_surges := by
  rw [detectChanges_rank_surges] at hmem ⊢
  rw [(List.perm_insertionSort _ _).mem_iff] at hmem ⊢
  obtain ⟨d, hd, hm⟩ := List.mem_flatMap.mp hmem
  refine List.mem_flatMap.mpr ⟨d, hd, ?_⟩
  cases hlk : lookupAL (buildDramaMap previous) d.drama_id with
  | none => simp [rankSurgesOf, hlk] at hm
  | some prev =>
      simp only [rankSurgesOf, hlk] at hm ⊢
      split at hm
      case isTrue hcond =>
        rw [List.mem_singleton] at hm
        subst hm
        rw [if_pos (le_trans hle hcond)]
        exact List.mem_singleton.mpr rfl
      case isFalse hcond => simp at hm

/-- Witness for C8: item M improves by 4 ranks; it is a surge at threshold 2
and stays one at threshold 1. -/
theorem rank_surges_monotone_witness :
    ((1 : Int) ≤ 2) ∧
    (⟨msCurr, 5, 4⟩ : RankChangeRec) ∈
      (detectChanges ⟨2, 50, 30⟩ [msCurr] [msPrev]).rank_surges ∧
    (⟨msCurr, 5, 4⟩ : RankChangeRec) ∈
      (detectChanges ⟨1, 50, 30⟩ [msCurr] [msPrev]).rank_surges :=
  ⟨by decide, by decide,
   rank_surges_monotone [msCurr] [msPrev] 1 2 50 30 (by decide) _ (by decide)⟩

theorem pyRound1_sixty : pyRound1 60 = 60 := by
  rw [pyRound1, roundHalfEven]
  norm_num

theorem scenario_read_surges_eval :
    (detectChanges scCfg scCurr scPrev).read_surges = [⟨scB2, 100, 60⟩] := by
  rw [detectChanges_read_surges]
  have hmap : buildDramaMap scPrev = [("A", scA), ("B", scB), ("C", scC)] := by decide
  rw [hmap]
  have hB : lookupAL [("A", scA), ("B", scB), ("C", scC)] scB2.drama_id = some scB := by decide
  have hD : lookupAL [("A", scA), ("B", scB), ("C", scC)] scD.drama_id = none := by decide
  have hA : lookupAL [("A", scA), ("B", scB), ("C", scC)] scA2.drama_id = some scA := by decide
  have hflat : scCurr.flatMap (readSurgesOf scCfg [("A", scA), ("B", scB), ("C", scC)]) =
      [⟨scB2, 100, 60⟩] := by
    rw [scCurr, List.flatMap_cons, List.flatMap_cons, List.flatMap_cons, List.flatMap_nil]
    rw [readSurgesOf, readSurgesOf, readSurgesOf, hB, hD, hA]
    norm_num [readSurgeEntry, scA, scB, scB2, scCfg, pyRound1_sixty]
  rw [hflat]
  rfl

/-- Counterexample to C2: at the spec scenario (surge_threshold 2) item A has
rank change −2 and the drop rule fires at rank_diff ≤ −2, so rank_drops is
[A], not empty as the claim states. -/
theorem scenario_rank_drops_not_empty :
    (detectChanges scCfg scCurr scPrev).rank_drops = [⟨scA2, 1, -2⟩] ∧
    (detectChanges scCfg scCurr scPrev).rank_drops ≠ [] :=
  ⟨by decide, by decide⟩

/-- C2 amended: the spec scenario yields exits [C], new_entries [D],
top_movers_up [B +1], top_movers_down [A −2], read_surges [B +60%], empty
rank_surges and collect_surges, and rank_drops [A −2] (not empty: |−2|
reaches the threshold 2). -/
theorem scenario_change_set :
    (detectChanges scCfg scCurr scPrev).exits = [scC] ∧
    (detectChanges scCfg scCurr scPrev).new_entries = [scD] ∧
    (detectChanges scCfg scCurr scPrev).top_movers_up = [⟨scB2, 2, 1⟩] ∧
    (detectChanges scCfg scCurr scPrev).top_movers_down = [⟨scA2, 1, -2⟩] ∧
    (detectChanges scCfg scCurr scPrev).rank_drops = [⟨scA2, 1, -2⟩] ∧
    (detectChanges scCfg scCurr scPrev).rank_surges = [] ∧
    (detectChanges scCfg scCurr scPrev).collect_surges = [] ∧
    (detectChanges scCfg scCurr scPrev).read_surges = [⟨scB2, 100, 60⟩] :=
  ⟨by decide, by decide, by decide, by decide, by decide, by decide, by decide,
   scenario_read_surges_eval⟩

/-- Witness for C7 at the spec scenario: B is a read surge and its stored
previous read count 100 is strictly positive. -/
theorem metric_surges_positive_prev_witness :
    ((⟨scB2, 100, 60⟩ : ReadSurgeRec) ∈ (detectChanges scCfg scCurr scPrev).read_surges) ∧
    0 < (⟨scB2, 100, 60⟩ : ReadSurgeRec).prev_read_count :=
  ⟨by rw [scenario_read_surges_eval]; exact List.mem_singleton.mpr rfl,
   (metric_surges_positive_prev scCfg scCurr scPrev).1 _
     (by rw [scenario_read_surges_eval]; exact List.mem_singleton.mpr rfl)⟩

/-- Counterexample to C3: in trendDb source P has snapshots only at times 2
and 3, yet its trend window endpoints are (1, 3) because time 1 — a crawl of
source Q only — is in the global distinct-time list; P is genuinely analyzed
(nonempty trend) although it has no snapshot at the earliest endpoint. -/
theorem trend_window_not_per_source :
    trendEndpoints trendDb 0 = some (1, 3) ∧
    (∀ r ∈ trendDb, r.platform = "P" → r.crawl_time ≠ 1) ∧
    get_dramas_at trendDb 2 "P" ≠ [] ∧
    analyze_theme_trends trendDb 0 "P" ≠ [] :=
  ⟨by decide, by decide, by decide, by decide⟩

/-- C3 amended: the trend window of analyze_theme_trends is global, not
per-source: its endpoints are the least and greatest distinct crawl times of
ANY source within the cutoff (the selection never consults the platform), so
an analyzed source need not have a snapshot at either endpoint. -/
theorem trend_window_endpoints_global (db : List DbRow) (since e l : Nat)
    (h : trendEndpoints db since = some (e, l)) :
    (∃ r ∈ db, since ≤ r.crawl_time ∧ r.crawl_time = e) ∧
    (∃ r ∈ db, since ≤ r.crawl_time ∧ r.crawl_time = l) ∧ e ≤ l := by
  rw [trendEndpoints] at h
  split at h
  · exact absurd h (by simp)
  case isFalse hlen =>
    have hpair := Option.some.inj h
    have he : (get_all_crawl_times db since).headD 0 = e := congrArg Prod.fst hpair
    have hl : (get_all_crawl_times db since).getLastD 0 = l := congrArg Prod.snd hpair
    have hne : get_all_crawl_times db since ≠ [] := by
      intro hnil
      rw [hnil] at hlen
      simp at hlen
    have hmem : ∀ x ∈ get_all_crawl_times db since,
        ∃ r ∈ db, since ≤ r.crawl_time ∧ r.crawl_time = x := by
      intro x hx
      rw [get_all_crawl_times] at hx
      have hx2 := (List.dedup_sublist _).subset hx
      have hx3 := (List.perm_insertionSort _ _).mem_iff.mp hx2
      obtain ⟨r, hr, hrx⟩ := List.mem_map.mp hx3
      rw [List.mem_filter] at hr
      exact ⟨r, hr.1, of_decide_eq_true hr.2, hrx⟩
    have hsort : (get_all_crawl_times db since).Sorted (fun a b => a ≤ b) := by
      rw [get_all_crawl_times]
      apply List.Pairwise.sublist (List.dedup_sublist _)
      haveI : IsTotal Nat (fun a b => a ≤ b) := ⟨fun a b => le_total _ _⟩
      haveI : IsTrans Nat (fun a b => a ≤ b) := ⟨fun a b c h1 h2 => le_trans h1 h2⟩
      exact List.sorted_insertionSort _ _
    have heq : (get_all_crawl_times db since).headD 0 =
        (get_all_crawl_times db since).head hne := by
      rw [List.headD_eq_head?, List.head?_eq_head hne]
      rfl
    have hleq : (get_all_crawl_times db since).getLastD 0 =
        (get_all_crawl_times db since).getLast hne := by
      rw [List.getLastD_eq_getLast?, List.getLast?_eq_getLast _ hne]
      rfl
    have heMem : e ∈ get_all_crawl_times db since := by
      rw [← he, heq]
      exact List.head_mem hne
    have hlMem : l ∈ get_all_crawl_times db since := by
      rw [← hl, hleq]
      exact List.getLast_mem hne
    refine ⟨hmem e heMem, hmem l hlMem, ?_⟩
    have hcons := List.head_cons_tail (get_all_crawl_times db since) hne
    rw [← he, heq]
    rw [← hcons] at hlMem hsort
    rcases List.mem_cons.mp hlMem with h1 | h1
    · rw [h1]
    · exact List.rel_of_sorted_cons hsort l h1

/-- Witness for the amended C3 at the concrete two-source database. -/
theorem trend_window_endpoints_global_witness :
    trendEndpoints trendDb 0 = some (1, 3) ∧
    ((∃ r ∈ trendDb, 0 ≤ r.crawl_time ∧ r.crawl_time = 1) ∧
     (∃ r ∈ trendDb, 0 ≤ r.crawl_time ∧ r.crawl_time = 3) ∧ (1 : Nat) ≤ 3) :=
  ⟨by decide, trend_window_endpoints_global trendDb 0 1 3 (by decide)⟩
